import Mathlib

/-!
Shallow embedding of the genstory lifecycle services
(src/app/services/character_service.py, src/app/services/story_service.py,
src/app/utils/openai_client.py, src/app/schemas/characters.py,
src/app/schemas/stories.py, src/app/db/models.py).

The database session is modelled as an explicit record of rows; each service
operation is a pure function from the current database (plus the external
inputs: caller identity, clock value, fresh uuid, and the outcome of the LLM
transport) to a result together with the database after the operation.
A SQLAlchemy session only persists mutations at `commit()`; every operation
commits at most once, at its end, and an exception raised before the commit
rolls the session back, so an operation that errors returns the database
unchanged.
-/

namespace Genstory

/-- Character status enum (src/app/db/models.py, class CharacterStatus). -/
inductive CharacterStatus where
  | draft
  | generated
  | finalized
deriving DecidableEq, Repr

/-- Story status enum (src/app/db/models.py, class StoryStatus). -/
inductive StoryStatus where
  | draft
  | generated
  | finalized
  | published
  | archived
deriving DecidableEq, Repr

/-- A trait entry (src/app/schemas/traits.py Trait: name/value pair, stored as
JSON in the `character_traits` / `optimized_traits` columns). -/
structure Trait where
  name : String
  value : String
deriving DecidableEq, Repr

/-- A Python JSON object (dict) with string values, as stored in the JSON
columns (`content`, role entries of `character_roles`). The empty dict is
`[]`, distinct from the column being NULL (`Option.none` at the field). -/
def PyDict : Type := List (String × String)

instance : DecidableEq PyDict := fun a b => List.hasDecEq a b

/-- Row of the `characters` table (src/app/db/models.py, class Character). -/
structure Character where
  id : String
  userId : Nat
  characterName : Option String
  optimizedName : Option String
  characterDescription : Option String
  optimizedDescription : Option String
  characterTraits : Option (List Trait)
  optimizedTraits : Option (List Trait)
  characterStoryContext : Option String
  optimizedStoryContext : Option String
  status : CharacterStatus
  createdAt : Nat
  updatedAt : Nat
deriving DecidableEq, Repr

/-- Row of the `stories` table (src/app/db/models.py, class Story; the model
has no `cover_image_id` column). -/
structure Story where
  id : String
  userId : Nat
  title : Option String
  optimizedTitle : Option String
  description : Option String
  optimizedDescription : Option String
  characterIds : List String
  characterRoles : Option (List PyDict)
  content : Option PyDict
  status : StoryStatus
  createdAt : Nat
  updatedAt : Nat
deriving DecidableEq

/-- Row of the `images` table (src/app/db/models.py is imported by the service
as Image: id, story_id, base64_data, created_at). -/
structure Image where
  id : String
  storyId : String
  base64Data : String
  createdAt : Nat
deriving DecidableEq, Repr

/-- The durable store visible to a service call: the committed rows. -/
structure DB where
  characters : List Character
  stories : List Story
  images : List Image
deriving DecidableEq

/-- View of an `Except` value as a sum, to derive decidable equality. -/
def exceptToSum {ε α : Type} : Except ε α → Sum ε α
  | .error e => .inl e
  | .ok a => .inr a

instance {ε α : Type} [DecidableEq ε] [DecidableEq α] : DecidableEq (Except ε α) :=
  fun a b =>
    decidable_of_iff (exceptToSum a = exceptToSum b)
      (by cases a <;> cases b <;> simp [exceptToSum])

/-- Outcomes a service operation can surface to the HTTP layer.  The first
six correspond to `raise HTTPException(...)` sites (with the detail string
indicated); the last three model Python exceptions that escape the service
uncaught. -/
inductive Err where
  | notFound          -- HTTPException 404
  | invalidState      -- HTTPException 400, status-precondition detail
  | invalidReference  -- HTTPException 400, "Invalid character IDs."
  | locked            -- HTTPException 400, "Finalized characters cannot be modified."
  | conflict          -- HTTPException 400, "Story already has a cover image."
  | generationError   -- HTTPException 500 raised after a generation failure
  | internalError     -- other HTTPException 500 sites
  | attributeError    -- uncaught Python AttributeError (NoneType attribute access)
  | keyError          -- uncaught Python KeyError (missing dict key)
deriving DecidableEq, Repr

/-- `select(Character).where(Character.id == character_id, Character.user_id
== user.id)` followed by `.scalars().first()`. -/
def DB.findCharacter (db : DB) (cid : String) (uid : Nat) : Option Character :=
  db.characters.find? (fun c => c.id == cid && c.userId == uid)

/-- `select(Story).where(Story.id == story_id, Story.user_id == user.id)`
followed by `.scalars().first()`. -/
def DB.findStory (db : DB) (sid : String) (uid : Nat) : Option Story :=
  db.stories.find? (fun s => s.id == sid && s.userId == uid)

/-- Committing the mutation of a loaded character row: the row with the same
primary key is overwritten. -/
def DB.putCharacter (db : DB) (c : Character) : DB :=
  { db with characters := db.characters.map (fun x => if x.id == c.id then c else x) }

/-- Committing the mutation of a loaded story row. -/
def DB.putStory (db : DB) (s : Story) : DB :=
  { db with stories := db.stories.map (fun x => if x.id == s.id then s else x) }

/-- `character_ids` eligibility query shared by `create_story` and
`refine_story_details` (story_service.py lines 28-34 and 103-109): characters
whose id is in the requested list, owned by the caller, with status
`generated` or `finalized`. -/
def DB.eligibleCharacters (db : DB) (ids : List String) (uid : Nat) : List Character :=
  db.characters.filter (fun c =>
    ids.contains c.id && c.userId == uid &&
      (c.status == CharacterStatus.generated || c.status == CharacterStatus.finalized))

/-- Request body for character create/update (src/app/schemas/characters.py,
class CharacterInput: optional name, required description, optional traits;
there is no story_context field). -/
structure CharacterInput where
  name : Option String
  description : String
  traits : Option (List Trait)
deriving DecidableEq, Repr

/-- `[trait.model_dump() for trait in data.traits] if data.traits else None`
(character_service.py lines 110-112): Python truthiness sends both `None`
and the empty list to `None`. -/
def traitsOrNone (ts : Option (List Trait)) : Option (List Trait) :=
  match ts with
  | none => none
  | some l => if l.isEmpty then none else some l

/-- Outcome of the `await generate_character_with_openai(character)` call as
seen by the service: either the call raised an exception, or it returned a
Python value from which the service reads the four `optimized_*` keys by
subscription.  A returned value is modelled by which of those four keys it
carries (a missing key makes the subscription raise KeyError). -/
inductive GenOutcome where
  | raised
  | value (optimizedName : Option String) (optimizedDescription : Option String)
      (optimizedTraits : Option (List Trait)) (optimizedStoryContext : Option String)
deriving DecidableEq, Repr

/-- CharacterService.generate_character (character_service.py lines 44-85).
Loads the owned character (404 if absent), requires status draft or
generated (400 otherwise), calls the gateway, copies the four
`optimized_*` keys of the returned dict into the row, sets status
`generated`, refreshes `updated_at`, commits.  Any non-HTTP exception
(a raising gateway call, or a KeyError while subscripting the returned
value) is caught by the blanket handler and re-raised as HTTPException 500
before the commit, so the store is unchanged on every failure path. -/
def generate_character (now : Nat) (cid : String) (uid : Nat) (gen : GenOutcome)
    (db : DB) : Except Err Character × DB :=
  match db.findCharacter cid uid with
  | none => (.error .notFound, db)
  | some c =>
    if c.status ≠ CharacterStatus.draft ∧ c.status ≠ CharacterStatus.generated then
      (.error .invalidState, db)
    else
      match gen with
      | .raised => (.error .generationError, db)
      | .value n d t sc =>
        match n, d, t, sc with
        | some n, some d, some t, some sc =>
          let c' := { c with
            optimizedName := some n
            optimizedDescription := some d
            optimizedTraits := some t
            optimizedStoryContext := some sc
            status := CharacterStatus.generated
            updatedAt := now }
          (.ok c', db.putCharacter c')
        | _, _, _, _ => (.error .generationError, db)

/-- CharacterService.update_character (character_service.py lines 87-126).
Loads the owned character (404), rejects `finalized` (400 "Finalized
characters cannot be modified."), then overwrites `character_name`,
`character_description`, `character_traits` from the input, nulls
`optimized_name`, `optimized_description`, `optimized_traits`, sets status
to `generated` unconditionally, refreshes `updated_at`, commits.  The code
never touches `character_story_context` or `optimized_story_context`
(lines 106-115). -/
def update_character (now : Nat) (cid : String) (inp : CharacterInput) (uid : Nat)
    (db : DB) : Except Err Character × DB :=
  match db.findCharacter cid uid with
  | none => (.error .notFound, db)
  | some c =>
    if c.status = CharacterStatus.finalized then
      (.error .locked, db)
    else
      let c' := { c with
        characterName := inp.name
        optimizedName := none
        characterDescription := some inp.description
        optimizedDescription := none
        characterTraits := traitsOrNone inp.traits
        optimizedTraits := none
        status := CharacterStatus.generated
        updatedAt := now }
      (.ok c', db.putCharacter c')

/-- CharacterService.finalize_character (character_service.py lines 128-158).
Loads the owned character (404), requires status `generated` (400
otherwise), sets status `finalized`, refreshes `updated_at`, commits. -/
def finalize_character (now : Nat) (cid : String) (uid : Nat) (db : DB) :
    Except Err Character × DB :=
  match db.findCharacter cid uid with
  | none => (.error .notFound, db)
  | some c =>
    if c.status ≠ CharacterStatus.generated then
      (.error .invalidState, db)
    else
      let c' := { c with status := CharacterStatus.finalized, updatedAt := now }
      (.ok c', db.putCharacter c')

/-- CharacterService.get_character_by_id (character_service.py lines
187-205). -/
def get_character_by_id (cid : String) (uid : Nat) (db : DB) : Except Err Character :=
  match db.findCharacter cid uid with
  | none => .error .notFound
  | some c => .ok c

/-- CharacterService.delete_character (character_service.py lines 207-230):
the owned row is loaded (404 if absent), then `await db.delete(character)`
removes it and the commit persists the removal. -/
def delete_character (cid : String) (uid : Nat) (db : DB) :
    Except Err String × DB :=
  match db.findCharacter cid uid with
  | none => (.error .notFound, db)
  | some c =>
    (.ok "Character deleted successfully.",
      { db with characters := db.characters.filter (fun x => x.id ≠ c.id) })

/-- One element of `response.choices`: `choice.message.content` plus a
parse oracle for it — whether `json.loads` succeeds on the content, and,
when it does, which of the keys the callers read the parsed JSON object
carries. -/
structure ChatChoice where
  content : String
  parsedTitle : Option String
  parsedDescription : Option String
  parsedRoles : Option (List PyDict)
  parses : Bool
deriving DecidableEq

/-- Outcome of the underlying `client.chat.completions.create(...)` call:
the call raised (network error, timeout, API rejection), or it returned a
response with a list of choices. -/
inductive ChatOutcome where
  | raised
  | choices (l : List ChatChoice)
deriving DecidableEq

/-- Result of `generate_story_details_with_openai` (openai_client.py lines
104-219): on any raised exception or an empty choice list it returns
the empty dict; when the first choice's content parses as JSON it returns
the parsed object (modelled by which of the three keys the service reads
are present); when parsing fails, the `json.loads` inside the `print`
raises JSONDecodeError, the outer handler catches it, and the empty dict is
returned. -/
structure StoryDetailsDict where
  optimizedTitle : Option String
  optimizedDescription : Option String
  characterRoles : Option (List PyDict)
deriving DecidableEq

/-- The empty Python dict, as a story-details result: no keys present. -/
def StoryDetailsDict.empty : StoryDetailsDict :=
  { optimizedTitle := none, optimizedDescription := none, characterRoles := none }

/-- generate_story_details_with_openai (openai_client.py lines 104-219). -/
def generate_story_details_with_openai (o : ChatOutcome) : StoryDetailsDict :=
  match o with
  | .raised => StoryDetailsDict.empty
  | .choices [] => StoryDetailsDict.empty
  | .choices (c :: _) =>
    if c.parses then
      { optimizedTitle := c.parsedTitle
        optimizedDescription := c.parsedDescription
        characterRoles := c.parsedRoles }
    else
      StoryDetailsDict.empty

/-- generate_story_content (openai_client.py lines 222-307).  On a raised
call or empty choices the handlers return the empty dict.  When the first
choice's content does parse, the code then evaluates
`json.loads(message_content["sentences"])` (line 296): `message_content`
is a `str`, and subscripting a `str` with a `str` key raises TypeError,
which the outer `except Exception` catches, returning the empty dict
(line 307).  When it does not parse, the `json.loads` inside the `print`
on line 292 raises JSONDecodeError, also caught by the outer handler.
Hence every branch returns the empty dict. -/
def generate_story_content (o : ChatOutcome) : PyDict :=
  match o with
  | .raised => ([] : PyDict)
  | .choices [] => ([] : PyDict)
  | .choices (c :: _) =>
    if c.parses then
      ([] : PyDict)
    else
      ([] : PyDict)

/-- Outcome of the `client.beta.chat.completions.parse(...)` transport used
by `generate_character_with_openai`: raised, or a response whose first
choice (if any) parsed into an EnhancedCharacter (openai_client.py lines
26-30). -/
inductive CharChatOutcome where
  | raised
  | parsed (optimizedName optimizedDescription optimizedStoryContext : String)
      (optimizedTraits : List Trait)
  | noChoices
deriving DecidableEq

/-- generate_character_with_openai (openai_client.py lines 53-101).  Its
first statement is `client = OpenAI(api_key=cofig)`: the name `cofig` is
not defined anywhere in the module, so evaluating it raises NameError
before the `try` block is entered, whatever the transport would have done;
the exception propagates to the caller.  (Had it got further, the success
path at line 78 returns the tuple
`(response.choices[0].message.parsed.optimized_name, response.id)` and the
handler at line 101 returns `(None, "No ID found")` — neither is the
four-key dict the service subscripts.) -/
def generate_character_with_openai (_o : CharChatOutcome) : GenOutcome :=
  GenOutcome.raised

/-- The full `generate_character` request path: the service invoking the
module-level client (character_service.py line 65 calling openai_client.py
line 53). -/
def generate_character_run (now : Nat) (cid : String) (uid : Nat)
    (o : CharChatOutcome) (db : DB) : Except Err Character × DB :=
  generate_character now cid uid (generate_character_with_openai o) db

/-- Request body for story creation (src/app/schemas/stories.py, class
StoryInput). -/
structure StoryInput where
  title : Option String
  description : String
  characterIds : List String
deriving DecidableEq

/-- The StoryInput field validators (schemas/stories.py lines 43-59):
`character_ids` must have at least 2 elements, `description` length at
least 20, `title` length at least 5 (`len(None)` raises, so a missing
title also fails validation).  Pydantic rejects the request before the
service runs when any validator fails. -/
def StoryInput.valid (inp : StoryInput) : Bool :=
  inp.characterIds.length ≥ 2 && inp.description.length ≥ 20 &&
    (match inp.title with
     | none => false
     | some t => t.length ≥ 5)

/-- StoryService.create_story (story_service.py lines 25-55): runs the
eligibility query over the requested `character_ids`, fails with 400
"Invalid character IDs." when the number of rows returned differs from the
number of requested ids, otherwise inserts a fresh draft story and
commits. -/
def create_story (now : Nat) (newId : String) (inp : StoryInput) (uid : Nat)
    (db : DB) : Except Err Story × DB :=
  let characters := db.eligibleCharacters inp.characterIds uid
  if characters.length ≠ inp.characterIds.length then
    (.error .invalidReference, db)
  else
    let s : Story := {
      id := newId
      userId := uid
      title := inp.title
      optimizedTitle := none
      description := some inp.description
      optimizedDescription := none
      characterIds := inp.characterIds
      characterRoles := none
      content := none
      status := StoryStatus.draft
      createdAt := now
      updatedAt := now }
    (.ok s, { db with stories := db.stories ++ [s] })

/-- The story-creation endpoint as the HTTP layer sees it: pydantic
validation of the StoryInput body, then StoryService.create_story.  A
validation failure is a 422 response produced before the service (and the
store) is touched. -/
def create_story_endpoint (now : Nat) (newId : String) (inp : StoryInput)
    (uid : Nat) (db : DB) : Except Err Story × DB :=
  if inp.valid then create_story now newId inp uid db
  else (.error .internalError, db)

/-- StoryService.refine_story_details (story_service.py lines 92-131).
The story query result is taken with `.scalars().first()` and used without
a None check: when the story is absent or owned by another user, line 104
evaluates `story.character_ids` on `None` and raises AttributeError, which
no handler catches.  Otherwise the character eligibility query must return
exactly `len(story.character_ids)` rows (400 "Invalid character IDs."),
the gateway is called inside a `try` whose handler re-raises HTTPException
500, and on a returned dict the service subscripts `optimized_title`,
`optimized_description` and `character_roles` outside any `try` — a
missing key raises an uncaught KeyError before any mutation is
committed. -/
def refine_story_details (now : Nat) (sid : String) (uid : Nat)
    (o : ChatOutcome) (db : DB) : Except Err Story × DB :=
  match db.findStory sid uid with
  | none => (.error .attributeError, db)
  | some story =>
    let characters := db.eligibleCharacters story.characterIds uid
    if characters.length ≠ story.characterIds.length then
      (.error .invalidReference, db)
    else
      let response := generate_story_details_with_openai o
      match response.optimizedTitle, response.optimizedDescription,
          response.characterRoles with
      | some t, some d, some roles =>
        let s' := { story with
          optimizedTitle := some t
          optimizedDescription := some d
          characterRoles := some roles
          status := StoryStatus.generated
          updatedAt := now }
        (.ok s', db.putStory s')
      | _, _, _ => (.error .keyError, db)

/-- StoryService.create_story_content (story_service.py lines 182-203).
Loads the owned story (404 if absent).  There is no precondition on
`character_roles` and no try/except around the gateway call: the returned
value — always the empty dict, see `generate_story_content` — is assigned
to `story.content`, status is set to `finalized`, `updated_at` refreshed,
and the change committed. -/
def create_story_content (now : Nat) (sid : String) (uid : Nat)
    (o : ChatOutcome) (db : DB) : Except Err Story × DB :=
  match db.findStory sid uid with
  | none => (.error .notFound, db)
  | some story =>
    let content := generate_story_content o
    let s' := { story with
      content := some content
      status := StoryStatus.finalized
      updatedAt := now }
    (.ok s', db.putStory s')

/-- StoryService.get_story_by_id (story_service.py lines 82-90). -/
def get_story_by_id (sid : String) (uid : Nat) (db : DB) : Except Err Story :=
  match db.findStory sid uid with
  | none => .error .notFound
  | some s => .ok s

/-- StoryService.delete_story (story_service.py lines 164-180).  The owned
story is loaded (404 if absent); then line 177 executes `db.delete(story)`
without `await` — `AsyncSession.delete` is a coroutine, so the un-awaited
call registers no deletion — and the commit persists nothing.  The
operation still returns the success message, leaving the row in place. -/
def delete_story (sid : String) (uid : Nat) (db : DB) : Except Err String × DB :=
  match db.findStory sid uid with
  | none => (.error .notFound, db)
  | some _ => (.ok "Story deleted successfully.", db)

/-- Python truthiness of the `content` JSON column (`if not story.content`,
story_service.py line 218): NULL and the empty dict are both falsy. -/
def contentFalsy (c : Option PyDict) : Bool :=
  match c with
  | none => true
  | some d => d.isEmpty

/-- Outcome of the cover-image generation block (story_service.py lines
230-246): prompt construction plus `generate_cover_image`, yielding base64
data or raising (caught and re-raised as HTTPException 500). -/
inductive ImageGenOutcome where
  | raised
  | ok (base64Data : String)
deriving DecidableEq

/-- StoryService.create_story_cover_image (story_service.py lines 206-252).
Loads the owned story (404), requires truthy `content` (400 "Story content
not found."), requires that no image row references this story (400 "Story
already has a cover image." — the image query is by story_id only), then
generates the image and inserts the row.  `story.cover_image_id` is set on
the instance but `Story` has no such column, so only `updated_at` is
persisted on the story row. -/
def create_story_cover_image (now : Nat) (newImageId : String) (sid : String)
    (uid : Nat) (gen : ImageGenOutcome) (db : DB) : Except Err Image × DB :=
  match db.findStory sid uid with
  | none => (.error .notFound, db)
  | some story =>
    if contentFalsy story.content then
      (.error .invalidState, db)
    else
      match db.images.find? (fun i => i.storyId == sid) with
      | some _ => (.error .conflict, db)
      | none =>
        match gen with
        | .raised => (.error .generationError, db)
        | .ok b64 =>
          let img : Image :=
            { id := newImageId
              storyId := sid
              base64Data := b64
              createdAt := now }
          let s' := { story with updatedAt := now }
          (.ok img,
            { (db.putStory s') with images := db.images ++ [img] })

/-- StoryService.get_cover_image (story_service.py lines 254-261): the
image is looked up by `Image.story_id == story_id` alone; the `user`
argument is never used in the query. -/
def get_cover_image (sid : String) (_uid : Nat) (db : DB) : Except Err Image :=
  match db.images.find? (fun i => i.storyId == sid) with
  | none => .error .notFound
  | some img => .ok img

/-- StoryService.download_cover_image (story_service.py lines 263-309): the
same owner-blind image lookup (404 if absent), a 500 when `base64_data` is
falsy, then base64 decoding and a filesystem write, each raising 500 on
failure; on success the saved path message is returned.  Decoding and the
write are modelled by outcome flags. -/
def download_cover_image (sid : String) (_uid : Nat) (decodeOk writeOk : Bool)
    (db : DB) : Except Err String :=
  match db.images.find? (fun i => i.storyId == sid) with
  | none => .error .notFound
  | some img =>
    if img.base64Data.isEmpty then .error .internalError
    else if !decodeOk then .error .internalError
    else if !writeOk then .error .internalError
    else .ok "Cover image downloaded successfully."

/-! Concrete fixtures used by the theorems below. -/

/-- Sample trait list. -/
def traitsA : List Trait := [{ name := "curious", value := "high" }]

/-- A draft character owned by user 1, no optimized fields. -/
def charDraft : Character :=
  { id := "c1"
    userId := 1
    characterName := some "Finn"
    optimizedName := none
    characterDescription := some "A curious fox"
    optimizedDescription := none
    characterTraits := some traitsA
    optimizedTraits := none
    characterStoryContext := some "forest"
    optimizedStoryContext := none
    status := CharacterStatus.draft
    createdAt := 0
    updatedAt := 0 }

/-- A generated character owned by user 1. -/
def charGen : Character :=
  { charDraft with id := "c2", status := CharacterStatus.generated }

/-- Another generated character owned by user 1. -/
def charGen2 : Character :=
  { charDraft with id := "c3", status := CharacterStatus.generated }

/-- Character update/create request body fixture. -/
def inputA : CharacterInput :=
  { name := some "Finn", description := "A braver fox", traits := some traitsA }

/-- A gateway value carrying all four optimized keys. -/
def genFull : GenOutcome :=
  GenOutcome.value (some "Finn the Swift") (some "A braver fox")
    (some traitsA) (some "sunny forest")

/-- A role object as produced by a successful refine. -/
def roleD : PyDict := [("name", "Finn"), ("role", "hero")]

/-- A refined story owned by user 1: roles present, content still null. -/
def story1 : Story :=
  { id := "s1"
    userId := 1
    title := some "Ocean Adventures"
    optimizedTitle := some "Mysteries of the Deep"
    description := some "A young sailor ventures into uncharted waters."
    optimizedDescription := some "A deeper description of the adventure."
    characterIds := ["c2", "c3"]
    characterRoles := some [roleD]
    content := none
    status := StoryStatus.generated
    createdAt := 0
    updatedAt := 0 }

/-- An unrefined draft story owned by user 1: `character_roles` is null and
`content` is null. -/
def storyU : Story :=
  { story1 with
    id := "s0"
    optimizedTitle := none
    optimizedDescription := none
    characterRoles := none
    status := StoryStatus.draft }

/-- A story owned by user 2. -/
def storyOther : Story := { story1 with id := "s2", userId := 2 }

/-- Databases for the concrete runs. -/
def db1 : DB := { characters := [charGen, charGen2], stories := [story1], images := [] }

/-- Database with only the draft character. -/
def dbC : DB := { characters := [charDraft], stories := [], images := [] }

/-- Database with two generated characters and a story of another user. -/
def dbS : DB := { characters := [charGen, charGen2], stories := [storyOther], images := [] }

/-- Database with the unrefined story. -/
def dbU : DB := { characters := [charGen, charGen2], stories := [storyU], images := [] }

/-- Cover image belonging to user 1's story s1. -/
def img1 : Image :=
  { id := "i1", storyId := "s1", base64Data := "aGVsbG8=", createdAt := 0 }

/-- Database holding user 1's story and its cover image. -/
def dbI : DB := { characters := [], stories := [story1], images := [img1] }

/-- A generated character that carries all four optimized fields. -/
def charGenOpt : Character :=
  { charGen with
    id := "c4"
    optimizedName := some "Finn the Swift"
    optimizedDescription := some "A braver fox"
    optimizedTraits := some traitsA
    optimizedStoryContext := some "sunny forest" }

/-- Database holding the fully-enriched generated character. -/
def dbG : DB := { characters := [charGenOpt], stories := [], images := [] }

/-- Story-creation body with a single character id. -/
def inpOne : StoryInput :=
  { title := some "Ocean Adventures"
    description := "A young sailor ventures into uncharted waters."
    characterIds := ["c2"] }

/-- Story-creation body listing the same eligible character twice. -/
def inpDup : StoryInput :=
  { inpOne with characterIds := ["c2", "c2"] }

/-- The gateway content call always yields the empty dict, whichever way the
transport went (openai_client.py lines 268-307: every branch of the handler
chain returns the empty dict). -/
theorem generate_story_content_empty (o : ChatOutcome) :
    generate_story_content o = ([] : PyDict) := by
  cases o with
  | raised => rfl
  | choices l =>
    cases l with
    | nil => rfl
    | cons c t => simp [generate_story_content]

/-- C1: the claim fails on the code.  Story s1 is refined (`content` null,
status `generated`); the content-generation transport raises (a timeout or
API error).  `create_story_content` does not fail with GenerationError and
does not leave the story unchanged: it reports success, persists the empty
dict as `content`, and sets status `finalized`. -/
theorem C1_counterexample :
    (create_story_content 5 "s1" 1 ChatOutcome.raised db1).1 ≠
      Except.error Err.generationError ∧
    (create_story_content 5 "s1" 1 ChatOutcome.raised db1).2 ≠ db1 ∧
    ((create_story_content 5 "s1" 1 ChatOutcome.raised db1).2.findStory "s1" 1).map
        Story.content = some (some ([] : PyDict)) ∧
    ((create_story_content 5 "s1" 1 ChatOutcome.raised db1).2.findStory "s1" 1).map
        Story.status = some StoryStatus.finalized := by
  decide

/-- Helper: `create_story_content` on an owned story always commits the
empty-dict content with status `finalized`, whatever the transport did. -/
theorem create_story_content_found (now : Nat) (sid : String) (uid : Nat)
    (o : ChatOutcome) (db : DB) (s : Story) (h : db.findStory sid uid = some s) :
    create_story_content now sid uid o db =
      (Except.ok { s with
          content := some ([] : PyDict)
          status := StoryStatus.finalized
          updatedAt := now },
        db.putStory { s with
          content := some ([] : PyDict)
          status := StoryStatus.finalized
          updatedAt := now }) := by
  unfold create_story_content
  rw [h, generate_story_content_empty]

/-- C1 (amended): for every owned story and every transport outcome —
failures included — `create_story_content` succeeds, overwriting `content`
with the empty dict returned by `generate_story_content` and setting
status `finalized`; GenerationError is never surfaced and a failed gateway
call changes the story instead of leaving it untouched. -/
theorem C1_content_failure_coerced (now : Nat) (sid : String) (uid : Nat)
    (o : ChatOutcome) (db : DB) (s : Story) (h : db.findStory sid uid = some s) :
    create_story_content now sid uid o db =
      (Except.ok { s with
          content := some ([] : PyDict)
          status := StoryStatus.finalized
          updatedAt := now },
        db.putStory { s with
          content := some ([] : PyDict)
          status := StoryStatus.finalized
          updatedAt := now }) ∧
    (create_story_content now sid uid o db).1 ≠
      Except.error Err.generationError := by
  refine ⟨create_story_content_found now sid uid o db s h, ?_⟩
  rw [create_story_content_found now sid uid o db s h]
  simp

/-- Witness for C1: the amended theorem applied to story s1 with a raising
transport. -/
theorem C1_witness :
    create_story_content 5 "s1" 1 ChatOutcome.raised db1 =
      (Except.ok { story1 with
          content := some ([] : PyDict)
          status := StoryStatus.finalized
          updatedAt := 5 },
        db1.putStory { story1 with
          content := some ([] : PyDict)
          status := StoryStatus.finalized
          updatedAt := 5 }) ∧
    (create_story_content 5 "s1" 1 ChatOutcome.raised db1).1 ≠
      Except.error Err.generationError :=
  C1_content_failure_coerced 5 "s1" 1 ChatOutcome.raised db1 story1 (by decide)

/-- C3: the claim fails on the code.  Story s0 has `character_roles` null,
yet `create_story_content` does not fail with InvalidState: it reports
success and `content` does not remain null. -/
theorem C3_counterexample :
    (create_story_content 7 "s0" 1 ChatOutcome.raised dbU).1 ≠
      Except.error Err.invalidState ∧
    ((create_story_content 7 "s0" 1 ChatOutcome.raised dbU).2.findStory "s0" 1).map
        Story.content = some (some ([] : PyDict)) := by
  decide

/-- C3 (amended): `create_story_content` checks no refinement precondition:
on an owned story whose `character_roles` is null or empty it still invokes
the gateway and persists the empty-dict content with status `finalized`;
`content` does not remain null, and no InvalidState error exists on this
path (the only failure the operation can surface is NotFound). -/
theorem C3_no_roles_precondition (now : Nat) (sid : String) (uid : Nat)
    (o : ChatOutcome) (db : DB) (s : Story) (h : db.findStory sid uid = some s)
    (_hroles : s.characterRoles = none ∨ s.characterRoles = some []) :
    (create_story_content now sid uid o db).1 =
      Except.ok { s with
        content := some ([] : PyDict)
        status := StoryStatus.finalized
        updatedAt := now } ∧
    (create_story_content now sid uid o db).1 ≠ Except.error Err.invalidState := by
  rw [create_story_content_found now sid uid o db s h]
  simp

/-- Witness for C3: the amended theorem applied to the unrefined story s0. -/
theorem C3_witness :
    (create_story_content 7 "s0" 1 ChatOutcome.raised dbU).1 =
      Except.ok { storyU with
        content := some ([] : PyDict)
        status := StoryStatus.finalized
        updatedAt := 7 } ∧
    (create_story_content 7 "s0" 1 ChatOutcome.raised dbU).1 ≠
      Except.error Err.invalidState :=
  C3_no_roles_precondition 7 "s0" 1 ChatOutcome.raised dbU storyU (by decide)
    (Or.inl (by decide))

/-- Helper: case analysis of `generate_character` — either it succeeds,
committing a row with all four optimized fields populated, status
`generated` and a refreshed `updated_at`, or it fails leaving the store
untouched. -/
theorem generate_character_spec (now : Nat) (cid : String) (uid : Nat)
    (gen : GenOutcome) (db : DB) :
    (∃ c', generate_character now cid uid gen db = (Except.ok c', db.putCharacter c') ∧
      c'.optimizedName ≠ none ∧ c'.optimizedDescription ≠ none ∧
      c'.optimizedTraits ≠ none ∧ c'.optimizedStoryContext ≠ none ∧
      c'.status = CharacterStatus.generated ∧ c'.updatedAt = now) ∨
    (∃ e, generate_character now cid uid gen db = (Except.error e, db)) := by
  unfold generate_character
  cases hf : db.findCharacter cid uid with
  | none => exact Or.inr ⟨Err.notFound, rfl⟩
  | some c =>
    by_cases hs : c.status ≠ CharacterStatus.draft ∧ c.status ≠ CharacterStatus.generated
    · exact Or.inr ⟨Err.invalidState, if_pos hs⟩
    · cases gen with
      | raised => exact Or.inr ⟨Err.generationError, if_neg hs⟩
      | value n d t sc =>
        cases n with
        | none => exact Or.inr ⟨Err.generationError, if_neg hs⟩
        | some n =>
          cases d with
          | none => exact Or.inr ⟨Err.generationError, if_neg hs⟩
          | some d =>
            cases t with
            | none => exact Or.inr ⟨Err.generationError, if_neg hs⟩
            | some t =>
              cases sc with
              | none => exact Or.inr ⟨Err.generationError, if_neg hs⟩
              | some sc =>
                exact Or.inl ⟨_, if_neg hs, by simp, by simp, by simp, by simp,
                  rfl, rfl⟩

/-- Helper: update on an owned finalized character is rejected with the
store unchanged. -/
theorem update_character_locked (now : Nat) (cid : String) (inp : CharacterInput)
    (uid : Nat) (db : DB) (c : Character) (h : db.findCharacter cid uid = some c)
    (hs : c.status = CharacterStatus.finalized) :
    update_character now cid inp uid db = (Except.error Err.locked, db) := by
  unfold update_character
  rw [h]
  exact if_pos hs

/-- Helper: the committed row of a successful update, spelled out. -/
theorem update_character_found (now : Nat) (cid : String) (inp : CharacterInput)
    (uid : Nat) (db : DB) (c : Character) (h : db.findCharacter cid uid = some c)
    (hs : c.status ≠ CharacterStatus.finalized) :
    update_character now cid inp uid db =
      (Except.ok { c with
          characterName := inp.name
          optimizedName := none
          characterDescription := some inp.description
          optimizedDescription := none
          characterTraits := traitsOrNone inp.traits
          optimizedTraits := none
          status := CharacterStatus.generated
          updatedAt := now },
        db.putCharacter { c with
          characterName := inp.name
          optimizedName := none
          characterDescription := some inp.description
          optimizedDescription := none
          characterTraits := traitsOrNone inp.traits
          optimizedTraits := none
          status := CharacterStatus.generated
          updatedAt := now }) := by
  unfold update_character
  rw [h]
  exact if_neg hs

/-- C2: the claim fails on the code.  Run generate on the draft character
with a gateway value carrying all four keys (success), then update it: the
persisted row has `optimized_name`, `optimized_description` and
`optimized_traits` null but `optimized_story_context` still populated —
the four fields are partially populated. -/
theorem C2_counterexample :
    (((update_character 2 "c1" inputA 1
          (generate_character 1 "c1" 1 genFull dbC).2).2).findCharacter "c1" 1).map
        (fun c => (c.optimizedName, c.optimizedDescription, c.optimizedTraits,
          c.optimizedStoryContext)) =
      some (none, none, none, some "sunny forest") := by
  decide

/-- C2 (amended): generation itself is atomic — a failed `generate_character`
call (raising gateway, or a returned value missing any of the four keys)
leaves the store unchanged, and a successful one writes all four
`optimized_*` fields as a unit — but `update_character` clears only
`optimized_name`, `optimized_description` and `optimized_traits`, leaving
`optimized_story_context` as it was, so the all-null-or-all-non-null
invariant is violated by an update that follows a successful generation. -/
theorem C2_generation_atomic_update_gap :
    (∀ now cid uid gen db e, (generate_character now cid uid gen db).1 = Except.error e →
      (generate_character now cid uid gen db).2 = db) ∧
    (∀ now cid uid gen db c', (generate_character now cid uid gen db).1 = Except.ok c' →
      c'.optimizedName ≠ none ∧ c'.optimizedDescription ≠ none ∧
        c'.optimizedTraits ≠ none ∧ c'.optimizedStoryContext ≠ none) ∧
    (∀ now cid inp uid db c c', db.findCharacter cid uid = some c →
      (update_character now cid inp uid db).1 = Except.ok c' →
      c'.optimizedName = none ∧ c'.optimizedDescription = none ∧
        c'.optimizedTraits = none ∧
        c'.optimizedStoryContext = c.optimizedStoryContext) := by
  refine ⟨?_, ?_, ?_⟩
  · intro now cid uid gen db e h
    rcases generate_character_spec now cid uid gen db with ⟨c', hc, _⟩ | ⟨e', he⟩
    · rw [hc] at h
      simp at h
    · rw [he]
  · intro now cid uid gen db c' h
    rcases generate_character_spec now cid uid gen db with
        ⟨c'', hc, h1, h2, h3, h4, _, _⟩ | ⟨e, he⟩
    · rw [hc] at h
      simp only [Except.ok.injEq] at h
      subst h
      exact ⟨h1, h2, h3, h4⟩
    · rw [he] at h
      simp at h
  · intro now cid inp uid db c c' h h2
    by_cases hs : c.status = CharacterStatus.finalized
    · rw [update_character_locked now cid inp uid db c h hs] at h2
      simp at h2
    · rw [update_character_found now cid inp uid db c h hs] at h2
      simp only [Except.ok.injEq] at h2
      subst h2
      exact ⟨rfl, rfl, rfl, rfl⟩

/-- Witness for C2: the atomicity parts applied at concrete inputs — a
raising gateway leaves the store untouched, and the successful run on the
draft character yields a row with all four fields populated. -/
theorem C2_witness :
    (generate_character 1 "c1" 1 GenOutcome.raised dbC).2 = dbC ∧
    ((generate_character 1 "c1" 1 genFull dbC).1 = Except.ok
        { charDraft with
          optimizedName := some "Finn the Swift"
          optimizedDescription := some "A braver fox"
          optimizedTraits := some traitsA
          optimizedStoryContext := some "sunny forest"
          status := CharacterStatus.generated
          updatedAt := 1 } →
      ({ charDraft with
          optimizedName := some "Finn the Swift"
          optimizedDescription := some "A braver fox"
          optimizedTraits := some traitsA
          optimizedStoryContext := some "sunny forest"
          status := CharacterStatus.generated
          updatedAt := 1 } : Character).optimizedName ≠ none) :=
  ⟨C2_generation_atomic_update_gap.1 1 "c1" 1 GenOutcome.raised dbC
      Err.generationError (by decide),
    fun h => (C2_generation_atomic_update_gap.2.1 1 "c1" 1 genFull dbC _ h).1⟩

/-- C4: the claim fails on the code.  Updating the draft character moves its
status to `generated` (the claim says a draft stays `draft`), and updating
the enriched generated character leaves `optimized_story_context` populated
(the claim says all four `optimized_*` fields become null). -/
theorem C4_counterexample :
    ((update_character 2 "c1" inputA 1 dbC).2.findCharacter "c1" 1).map
        Character.status = some CharacterStatus.generated ∧
    ((update_character 3 "c4" inputA 1 dbG).2.findCharacter "c4" 1).map
        Character.optimizedStoryContext = some (some "sunny forest") := by
  decide

/-- C4 (amended): update on an owned non-finalized Character overwrites
name, description and traits from the input (the input schema has no
story_context field and `character_story_context` is left untouched),
nulls `optimized_name`, `optimized_description` and `optimized_traits`
while leaving `optimized_story_context` unchanged, and sets
`status = generated` unconditionally — a draft character becomes
`generated` by a mere edit. -/
theorem C4_update_overwrites (now : Nat) (cid : String) (inp : CharacterInput)
    (uid : Nat) (db : DB) (c : Character) (h : db.findCharacter cid uid = some c)
    (hs : c.status ≠ CharacterStatus.finalized) :
    update_character now cid inp uid db =
      (Except.ok { c with
          characterName := inp.name
          optimizedName := none
          characterDescription := some inp.description
          optimizedDescription := none
          characterTraits := traitsOrNone inp.traits
          optimizedTraits := none
          status := CharacterStatus.generated
          updatedAt := now },
        db.putCharacter { c with
          characterName := inp.name
          optimizedName := none
          characterDescription := some inp.description
          optimizedDescription := none
          characterTraits := traitsOrNone inp.traits
          optimizedTraits := none
          status := CharacterStatus.generated
          updatedAt := now }) :=
  update_character_found now cid inp uid db c h hs

/-- Witness for C4: the amended theorem applied to the draft character. -/
theorem C4_witness :
    update_character 2 "c1" inputA 1 dbC =
      (Except.ok { charDraft with
          characterName := inputA.name
          optimizedName := none
          characterDescription := some inputA.description
          optimizedDescription := none
          characterTraits := traitsOrNone inputA.traits
          optimizedTraits := none
          status := CharacterStatus.generated
          updatedAt := 2 },
        dbC.putCharacter { charDraft with
          characterName := inputA.name
          optimizedName := none
          characterDescription := some inputA.description
          optimizedDescription := none
          characterTraits := traitsOrNone inputA.traits
          optimizedTraits := none
          status := CharacterStatus.generated
          updatedAt := 2 }) :=
  C4_update_overwrites 2 "c1" inputA 1 dbC charDraft (by decide) (by decide)

/-- C5: the code evaluates the undefined name `cofig` inside
`generate_character_with_openai` before the API call, so even a transport
that would deliver a fully parsed EnhancedCharacter makes the composed
generate request fail with HTTPException 500 and leave the draft character
unchanged — the success path of the claim is unreachable. -/
theorem C5_run_always_fails :
    generate_character_run 1 "c1" 1
        (CharChatOutcome.parsed "Finn the Swift" "A braver fox" "sunny forest" traitsA)
        dbC =
      (Except.error Err.generationError, dbC) := by
  decide

/-- Helper: each id carried by an eligible-characters row is one of the
requested ids. -/
theorem eligibleCharacters_id_mem (db : DB) (ids : List String) (uid : Nat)
    (x : String) (hx : x ∈ (db.eligibleCharacters ids uid).map Character.id) :
    x ∈ ids := by
  rcases List.mem_map.mp hx with ⟨ch, hch, rfl⟩
  have hp := (List.mem_filter.mp hch).2
  simp only [Bool.and_eq_true] at hp
  simpa using hp.1.1

/-- Helper: when the store's character ids are distinct (they are primary
keys), a duplicated id in the request makes the eligibility query return
fewer rows than requested. -/
theorem eligibleCharacters_short_of_dup (db : DB) (ids : List String) (uid : Nat)
    (hpk : (db.characters.map Character.id).Nodup) (hdup : ¬ ids.Nodup) :
    (db.eligibleCharacters ids uid).length ≠ ids.length := by
  intro heq
  have hsub : List.Sublist ((db.eligibleCharacters ids uid).map Character.id)
      (db.characters.map Character.id) :=
    (List.filter_sublist db.characters).map Character.id
  have hnd : ((db.eligibleCharacters ids uid).map Character.id).Nodup :=
    hpk.sublist hsub
  have hsp : List.Subperm ((db.eligibleCharacters ids uid).map Character.id)
      ids.dedup :=
    hnd.subperm (fun x hx => (List.mem_dedup).mpr
      (eligibleCharacters_id_mem db ids uid x hx))
  have hle : ((db.eligibleCharacters ids uid).map Character.id).length ≤
      ids.dedup.length := hsp.length_le
  have hlt : ids.dedup.length < ids.length := by
    rcases Nat.lt_or_ge ids.dedup.length ids.length with h | h
    · exact h
    · have hlen : ids.dedup.length = ids.length :=
        Nat.le_antisymm (List.dedup_sublist ids).length_le h
      have : ids.Nodup := (List.dedup_sublist ids).eq_of_length hlen ▸
        List.nodup_dedup ids
      exact absurd this hdup
  rw [List.length_map] at hle
  omega

/-- C6: Story creation fails before any store write whenever fewer than two
character ids are supplied (the pydantic validator rejects the request) or
the eligibility query resolves a different number of rows than requested;
with distinct primary keys, a duplicated requested id always triggers the
mismatch.  In every failure the store is returned unchanged, so no story
row is created. -/
theorem C6_create_story_validation (now : Nat) (newId : String) (inp : StoryInput)
    (uid : Nat) (db : DB) (hpk : (db.characters.map Character.id).Nodup) :
    (inp.characterIds.length < 2 →
      create_story_endpoint now newId inp uid db = (Except.error Err.internalError, db)) ∧
    ((db.eligibleCharacters inp.characterIds uid).length ≠ inp.characterIds.length →
      create_story now newId inp uid db = (Except.error Err.invalidReference, db)) ∧
    (¬ inp.characterIds.Nodup →
      (db.eligibleCharacters inp.characterIds uid).length ≠ inp.characterIds.length) := by
  refine ⟨?_, ?_, eligibleCharacters_short_of_dup db inp.characterIds uid hpk⟩
  · intro h
    have hv : inp.valid = false := by
      unfold StoryInput.valid
      have hnot : ¬ (inp.characterIds.length ≥ 2) := by omega
      simp [hnot]
    unfold create_story_endpoint
    rw [hv]
    rfl
  · intro h
    unfold create_story
    exact if_pos h

/-- Witness for C6: one requested id fails validation before the store is
touched; a duplicated eligible id fails the resolution count. -/
theorem C6_witness :
    create_story_endpoint 0 "s9" inpOne 1 dbS = (Except.error Err.internalError, dbS) ∧
    create_story 0 "s9" inpDup 1 dbS = (Except.error Err.invalidReference, dbS) :=
  ⟨(C6_create_story_validation 0 "s9" inpOne 1 dbS (by decide)).1 (by decide),
    (C6_create_story_validation 0 "s9" inpDup 1 dbS (by decide)).2.1 (by decide)⟩

/-- C7: the code reaches `story.character_ids` on `None` and raises an
uncaught AttributeError — not NotFound — both for an id that does not
exist and for a story owned by another user; the store is unchanged. -/
theorem C7_missing_story_crashes :
    refine_story_details 3 "nosuch" 1 ChatOutcome.raised dbS =
      (Except.error Err.attributeError, dbS) ∧
    refine_story_details 3 "s2" 1 ChatOutcome.raised dbS =
      (Except.error Err.attributeError, dbS) := by
  decide

/-- C8: delete-then-get behaves as claimed for Characters, but
`delete_story` reports success while the un-awaited `db.delete(story)`
removes nothing, so a subsequent get still returns the story. -/
theorem C8_delete_story_noop :
    (delete_story "s1" 1 db1).1 = Except.ok "Story deleted successfully." ∧
    get_story_by_id "s1" 1 (delete_story "s1" 1 db1).2 = Except.ok story1 ∧
    (delete_character "c1" 1 dbC).1 = Except.ok "Character deleted successfully." ∧
    get_character_by_id "c1" 1 (delete_character "c1" 1 dbC).2 =
      Except.error Err.notFound := by
  decide

/-- C9: the cover-image read operations are not owner-scoped: user 2 asks
for the cover image of story s1, which belongs to user 1 (the story lookup
scoped to user 2 finds nothing), and both `get_cover_image` and
`download_cover_image` hand the artifact over instead of behaving as if it
were absent. -/
theorem C9_cover_image_cross_user :
    dbI.findStory "s1" 2 = none ∧
    get_cover_image "s1" 2 dbI = Except.ok img1 ∧
    download_cover_image "s1" 2 true true dbI =
      Except.ok "Cover image downloaded successfully." := by
  decide

/-- C10: finalize on an owned Character succeeds exactly when its status is
`generated` (writing status `finalized` and refreshing `updated_at`), and
for any other status fails with InvalidState leaving the store unchanged. -/
theorem C10_finalize_iff (now : Nat) (cid : String) (uid : Nat) (db : DB)
    (c : Character) (h : db.findCharacter cid uid = some c) :
    (c.status = CharacterStatus.generated →
      finalize_character now cid uid db =
        (Except.ok { c with status := CharacterStatus.finalized, updatedAt := now },
          db.putCharacter { c with status := CharacterStatus.finalized, updatedAt := now })) ∧
    (c.status ≠ CharacterStatus.generated →
      finalize_character now cid uid db = (Except.error Err.invalidState, db)) := by
  unfold finalize_character
  rw [h]
  constructor
  · intro hs
    exact if_neg (not_not_intro hs)
  · intro hs
    exact if_pos hs

/-- Witness for C10: finalize succeeds on the generated character c2 and is
rejected with the store unchanged on the draft character c1. -/
theorem C10_witness :
    finalize_character 9 "c2" 1 dbS =
      (Except.ok { charGen with status := CharacterStatus.finalized, updatedAt := 9 },
        dbS.putCharacter { charGen with status := CharacterStatus.finalized, updatedAt := 9 }) ∧
    finalize_character 9 "c1" 1 dbC = (Except.error Err.invalidState, dbC) :=
  ⟨(C10_finalize_iff 9 "c2" 1 dbS charGen (by decide)).1 (by decide),
    (C10_finalize_iff 9 "c1" 1 dbC charDraft (by decide)).2 (by decide)⟩

end Genstory
